import Mathlib

/-!
Shallow embedding of the markdown-to-PDF/DOCX rendering pipeline of
`src/pdf_docx_api.py` and proofs about it.

Modelling conventions:
* Python strings are modelled as `List Char`; byte strings as `List Nat`.
* Python floats are modelled as exact rationals (`ℚ`); the numeric literals
  (`0.5`, `0.15`, `0.25`, `0.3`, `0.7`, `0.8`) are embedded as the exact
  rationals they denote in the source text.
* Python exceptions are modelled with `Except`; a `try/except` block becomes
  a `match` on the `Except` value.
* Third-party renderers (WeasyPrint, ReportLab's document build, pandoc,
  python-docx's save, the mermaid CLI and the two diagram web services,
  the zip parser used by DOCX validation) are external collaborators and are
  modelled as oracle functions / outcome values supplied in an environment
  record, exactly as the spec treats them ("black-box renderers with known
  capability and failure modes").
-/

namespace PdfDocxApi

/-! ## Python string primitives -/

/-- Python `str` whitespace characters (the ASCII ones relevant here);
used by `str.strip()` and `\s` in the separator-row regex. -/
def pyIsSpace (c : Char) : Bool :=
  c = ' ' || c = '\t' || c = '\n' || c = '\r' || c = '\x0b' || c = '\x0c'

/-- Python `str.strip()`: drop whitespace from both ends. -/
def pyStrip (l : List Char) : List Char :=
  ((l.dropWhile pyIsSpace).reverse.dropWhile pyIsSpace).reverse

/-- Python truthiness test `not s or not s.strip()` for a string `s`. -/
def pyIsBlank (l : List Char) : Bool :=
  l.isEmpty || (pyStrip l).isEmpty

/-- First line of a string: `s.split('\n')[0]` (Python `split` always returns
at least one piece, and its first piece is everything before the first
newline). -/
def firstLineOf (l : List Char) : List Char :=
  l.takeWhile (fun c => c ≠ '\n')

/-! ## Table row parsing (`parse_markdown_table` lines 427-443 and
`_add_table_to_doc` lines 1666-1670)

Source: `cells = [cell.strip() for cell in line.split('|') if cell.strip()]`
followed by the separator-row test `re.match(r'^[-:\s]+$', cell)`. -/

/-- Split one raw table line on `'|'`, strip each piece, and keep only the
pieces that are non-empty after stripping. -/
def parseRow (line : List Char) : List (List Char) :=
  ((line.splitOn '|').map pyStrip).filter (fun c => ¬c.isEmpty)

/-- One character of a GitHub alignment-separator cell: `[-:\s]`. -/
def isSepChar (c : Char) : Bool :=
  c = '-' || c = ':' || pyIsSpace c

/-- `re.match(r'^[-:\s]+$', cell)`: the cell is non-empty and consists only
of dashes, colons and whitespace. -/
def isSepCell (c : List Char) : Bool :=
  ¬c.isEmpty && c.all isSepChar

/-- The separator-row loop: `is_separator` stays `True` iff every cell of the
row matches `^[-:\s]+$`. -/
def rowIsSeparator (cells : List (List Char)) : Bool :=
  cells.all isSepCell

/-- The surviving rows of one table block: parse every buffered line, keep
rows that are non-empty (`if cells:`) and are not separator rows
(`if not is_separator:`).  Shared verbatim by `parse_markdown_table` and
`_add_table_to_doc`. -/
def tableRows (tls : List (List Char)) : List (List (List Char)) :=
  (tls.map parseRow).filter (fun cs => ¬cs.isEmpty && ¬rowIsSeparator cs)

/-! ## Table layout engine (`parse_markdown_table` lines 446-565) -/

/-- ReportLab's `A4[0]`: the A4 page width of 210 mm in points
(210 * 72 / 25.4). -/
def a4Width : ℚ := 75600 / 127

/-- `left_margin = 20`. -/
def pageLeftMargin : ℚ := 20

/-- `right_margin = 20`. -/
def pageRightMargin : ℚ := 20

/-- `available_width = page_width - left_margin - right_margin`. -/
def availableWidth : ℚ := a4Width - pageLeftMargin - pageRightMargin

/-- `max_content_lengths`: for each column index below `num_cols`, the
maximum cell length over all rows that have that column. -/
def maxContentLengths (rows : List (List (List Char))) (numCols : ℕ) : List ℕ :=
  (List.range numCols).map fun c =>
    rows.foldl (fun m row => if c < row.length then max m (row.getD c []).length else m) 0

/-- `narrow_cols`: indices whose max content length is ≤ 3. -/
def narrowCols (L : List ℕ) : List ℕ :=
  (L.enum.filter fun p => decide (p.2 ≤ 3)).map Prod.fst

/-- `medium_cols`: indices whose max content length is in 4..15. -/
def mediumCols (L : List ℕ) : List ℕ :=
  (L.enum.filter fun p => decide (¬p.2 ≤ 3 ∧ p.2 ≤ 15)).map Prod.fst

/-- `wide_cols`: indices whose max content length is > 15. -/
def wideColsL (L : List ℕ) : List ℕ :=
  (L.enum.filter fun p => decide (¬p.2 ≤ 3 ∧ ¬p.2 ≤ 15)).map Prod.fst

/-- `remaining_width` before the 50% adjustment:
`available_width - len(narrow)*15 - len(medium)*45`. -/
def initialRemaining (L : List ℕ) : ℚ :=
  availableWidth - (narrowCols L).length * 15 - (mediumCols L).length * 45

/-- `narrow_width` after the conditional shrink step: inside
`if remaining_width < available_width * 0.5`, it becomes
`max(12, remaining_width * 0.15 / len(narrow_cols))` when there are narrow
columns; otherwise it stays `15`. -/
def narrowW (L : List ℕ) : ℚ :=
  if initialRemaining L < availableWidth * (1 / 2) ∧ 0 < (narrowCols L).length then
    max 12 (initialRemaining L * (3 / 20) / ((narrowCols L).length : ℚ))
  else 15

/-- `medium_width` after the conditional shrink step: inside the same branch
it becomes `max(30, remaining_width * 0.25 / len(medium_cols))` when there are
medium columns; otherwise it stays `45`. -/
def mediumW (L : List ℕ) : ℚ :=
  if initialRemaining L < availableWidth * (1 / 2) ∧ 0 < (mediumCols L).length then
    max 30 (initialRemaining L * (1 / 4) / ((mediumCols L).length : ℚ))
  else 45

/-- `remaining_width` after the shrink step:
`available_width - len(narrow)*narrow_width - len(medium)*medium_width`.
(When the shrink branch is not taken this equals `initialRemaining L`, since
the widths are then 15 and 45, so the unconditional formula is faithful.) -/
def remainingW (L : List ℕ) : ℚ :=
  availableWidth - (narrowCols L).length * narrowW L - (mediumCols L).length * mediumW L

/-- `total_wide_weight = sum(wide_content_lengths)`. -/
def wideTotalWeight (L : List ℕ) : ℚ :=
  ((wideColsL L).map fun i => ((L.getD i 0 : ℕ) : ℚ)).sum

/-- Width of one wide column: proportional share of the remaining width,
capped at 80% of the available width; the `total_wide_weight == 0` fallback
divides the remaining width evenly. -/
def wideWidth (L : List ℕ) (i : ℕ) : ℚ :=
  if 0 < wideTotalWeight L then
    min (availableWidth * (4 / 5)) (((L.getD i 0 : ℕ) : ℚ) / wideTotalWeight L * remainingW L)
  else remainingW L / ((wideColsL L).length : ℚ)

/-- `narrow_width` as reassigned in the no-wide-columns branch. -/
def narrowW2 (L : List ℕ) : ℚ :=
  if 0 < (narrowCols L).length ∧ 0 < (mediumCols L).length then
    remainingW L * (3 / 10) / ((narrowCols L).length : ℚ)
  else if 0 < (narrowCols L).length then
    remainingW L / ((narrowCols L).length : ℚ)
  else narrowW L

/-- `medium_width` as reassigned in the no-wide-columns branch. -/
def mediumW2 (L : List ℕ) : ℚ :=
  if 0 < (narrowCols L).length ∧ 0 < (mediumCols L).length then
    remainingW L * (7 / 10) / ((mediumCols L).length : ℚ)
  else if 0 < (mediumCols L).length then
    remainingW L / ((mediumCols L).length : ℚ)
  else mediumW L

/-- `col_widths` as the list of `(col_idx, col_width)` pairs, in the order the
source appends them: wide pairs first, then narrow, then medium (or, when
there are no wide columns, narrow then medium with the reassigned widths). -/
def colWidthPairs (L : List ℕ) : List (ℕ × ℚ) :=
  if ¬(wideColsL L).isEmpty then
    ((wideColsL L).map fun i => (i, wideWidth L i))
      ++ ((narrowCols L).map fun i => (i, narrowW L))
      ++ ((mediumCols L).map fun i => (i, mediumW L))
  else
    ((narrowCols L).map fun i => (i, narrowW2 L))
      ++ ((mediumCols L).map fun i => (i, mediumW2 L))

/-- `col_widths.sort(key=lambda x: x[0])`: the pairs ordered by column
index (all indices are distinct, so any comparison sort gives the same
result). -/
def sortedWidthPairs (L : List ℕ) : List (ℕ × ℚ) :=
  List.insertionSort (fun a b => a.1 ≤ b.1) (colWidthPairs L)

/-- `col_widths = [width for _, width in col_widths]` after sorting. -/
def rawColWidths (L : List ℕ) : List ℚ :=
  (sortedWidthPairs L).map Prod.snd

/-- The final safety check: if the widths sum to more than the available
width, scale every width down by `available_width / total_width`. -/
def colWidthsFinal (L : List ℕ) : List ℚ :=
  if availableWidth < (rawColWidths L).sum then
    (rawColWidths L).map fun w => w * (availableWidth / (rawColWidths L).sum)
  else rawColWidths L

/-- Font-size/padding tiers keyed on the column count
(`parse_markdown_table` lines 546-565): header size, data size, padding. -/
def tableFontTier (numCols : ℕ) : ℚ × ℚ × ℚ :=
  if 12 < numCols then (5, 4, 1 / 2)
  else if 8 < numCols then (6, 5, 1)
  else if 6 < numCols then (7, 6, 2)
  else if 4 < numCols then (8, 7, 3)
  else (9, 8, 4)

/-- The layout-ready table produced by `parse_markdown_table`: the surviving
rows, the per-column max content lengths, and the final column width plan. -/
structure ParsedTable where
  rows : List (List (List Char))
  maxLens : List ℕ
  colWidths : List ℚ
  deriving Repr, DecidableEq

/-- The `max_content_lengths` of a table block's surviving rows, with
`num_cols = len(rows[0])`. -/
def parsedMaxLens (tls : List (List Char)) : List ℕ :=
  maxContentLengths (tableRows tls) ((tableRows tls).headD []).length

/-- `parse_markdown_table`: `None` for an empty buffer, `None` when fewer
than two rows survive separator removal, otherwise the laid-out table.
`num_cols = len(rows[0])`. -/
def parse_markdown_table (tls : List (List Char)) : Option ParsedTable :=
  if tls.isEmpty then none
  else if (tableRows tls).length < 2 then none
  else
    some { rows := tableRows tls, maxLens := parsedMaxLens tls,
           colWidths := colWidthsFinal (parsedMaxLens tls) }

/-- `_add_table_to_doc`: parses the buffered lines with the same row rules
and adds a table only when at least two rows survive (`if len(rows) < 2:
return`).  Returns the rows it fills in, or `none` when no table is added. -/
def docxAddTable (tls : List (List Char)) : Option (List (List (List Char))) :=
  if (tableRows tls).length < 2 then none
  else some (tableRows tls)

/-! ## Block classifiers

Per-line elif chains of the two direct block assemblers, applied to the
stripped line (`line = line.strip()` in `markdown_to_pdf_bytes_reportlab`,
`stripped = line.strip()` in `markdown_to_docx_bytes`). -/

/-- The digit prefixes accepted by the ReportLab numbered-list check
`line.startswith(('1. ', '2. ', ..., '9. '))`. -/
def digits19 : List Char := ['1', '2', '3', '4', '5', '6', '7', '8', '9']

/-- Kind of element the ReportLab assembler emits for one (stripped) line in
normal mode. -/
inductive PdfLineKind where
  | fence
  | tableLine
  | blank
  | heading (level : ℕ) (text : List Char)
  | bullet (text : List Char)
  | numbered (text : List Char)
  | normal (text : List Char)
  deriving Repr, DecidableEq

/-- Line classification of `markdown_to_pdf_bytes_reportlab` (lines
1101-1233), in source order: fence toggle, table line, blank, headings
`#### ` down to `# `, bullet, numbered (`'1. '`..`'9. '`), plain text. -/
def pdfClassifyLine (line : List Char) : PdfLineKind :=
  if List.isPrefixOf "```".data line then .fence
  else if '|' ∈ line ∧ ¬List.isPrefixOf "#".data line then .tableLine
  else if line.isEmpty then .blank
  else if List.isPrefixOf "#### ".data line then .heading 4 (pyStrip (line.drop 5))
  else if List.isPrefixOf "### ".data line then .heading 3 (pyStrip (line.drop 4))
  else if List.isPrefixOf "## ".data line then .heading 2 (pyStrip (line.drop 3))
  else if List.isPrefixOf "# ".data line then .heading 1 (pyStrip (line.drop 2))
  else if List.isPrefixOf "- ".data line ∨ List.isPrefixOf "* ".data line then
    .bullet (pyStrip (line.drop 2))
  else if digits19.any (fun d => List.isPrefixOf [d, '.', ' '] line) then .numbered line
  else .normal line

/-- Kind of element the python-docx assembler emits for one (stripped) line. -/
inductive DocxLineKind where
  | blank
  | tableLine
  | heading (level : ℕ) (text : List Char)
  | bullet (text : List Char)
  | numbered (text : List Char)
  | hr
  | paragraph (text : List Char)
  deriving Repr, DecidableEq

/-- Python `s[:2].isdigit()`: the first-two-character slice is non-empty and
all digits. -/
def pyTake2IsDigit (s : List Char) : Bool :=
  ¬(s.take 2).isEmpty && (s.take 2).all Char.isDigit

/-- Python `s[2:4]`. -/
def slice24 (s : List Char) : List Char :=
  (s.drop 2).take 2

/-- `stripped[stripped.index(' ')+1:]`: everything after the first space. -/
def afterFirstSpace (s : List Char) : List Char :=
  s.drop ((s.takeWhile fun c => c ≠ ' ').length + 1)

/-- Line classification of the python-docx fallback in
`markdown_to_docx_bytes` (lines 1509-1590), in source order: blank, table
line, headings `# ` up to `###### `, bullet, numbered
(`stripped[:2].isdigit() and stripped[2:4] in ('. ', ') ')`), horizontal
rule, paragraph. -/
def docxClassifyLine (stripped : List Char) : DocxLineKind :=
  if stripped.isEmpty then .blank
  else if '|' ∈ stripped ∧ ¬List.isPrefixOf "#".data stripped then .tableLine
  else if List.isPrefixOf "# ".data stripped then .heading 1 (stripped.drop 2)
  else if List.isPrefixOf "## ".data stripped then .heading 2 (stripped.drop 3)
  else if List.isPrefixOf "### ".data stripped then .heading 3 (stripped.drop 4)
  else if List.isPrefixOf "#### ".data stripped then .heading 4 (stripped.drop 5)
  else if List.isPrefixOf "##### ".data stripped then .heading 5 (stripped.drop 6)
  else if List.isPrefixOf "###### ".data stripped then .heading 6 (stripped.drop 7)
  else if List.isPrefixOf "- ".data stripped ∨ List.isPrefixOf "* ".data stripped then
    .bullet (stripped.drop 2)
  else if pyTake2IsDigit stripped ∧ (slice24 stripped = ". ".data ∨ slice24 stripped = ") ".data) then
    .numbered (afterFirstSpace stripped)
  else if stripped = "---".data ∨ stripped = "***".data ∨ stripped = "___".data then .hr
  else .paragraph stripped

/-! ## Diagram render chain (`render_mermaid_diagram` lines 734-819) -/

/-- Outcome of the `subprocess.run(['mmdc', ...], timeout=30)` call, the
failure modes of the local CLI renderer as the spec declares them: binary
missing (`FileNotFoundError`), timeout (`TimeoutExpired`), or a completed
process with its exit code and the bytes found in the output file. -/
inductive CliOutcome where
  | notFound
  | timeout
  | ran (exitCode : ℕ) (outBytes : List Nat)
  deriving Repr, DecidableEq

/-- Outcome of one `requests.get(url, timeout=15)` call: a response with
status and body, or a raised request exception. -/
inductive HttpOutcomeM where
  | resp (status : ℕ) (body : List Nat)
  | exc
  deriving Repr, DecidableEq

/-- The environment of one diagram render: the startup capability flag and
the outcome each of the three methods would produce. -/
structure MermaidEnv where
  mermaidAvailable : Bool
  cli : CliOutcome
  ink : HttpOutcomeM
  kroki : HttpOutcomeM
  deriving Repr, DecidableEq

/-- Method 3 (Kroki) and the final `return None`: success requires HTTP 200
and a non-empty body; any other response or a raised exception falls through
to `None`. -/
def afterInk (env : MermaidEnv) : Option (List Nat) :=
  match env.kroki with
  | .resp s b => if s = 200 ∧ ¬b.isEmpty then some b else none
  | .exc => none

/-- Method 2 (mermaid.ink): success requires HTTP 200 and a non-empty body;
any other response or a raised exception falls through to method 3. -/
def afterCli (env : MermaidEnv) : Option (List Nat) :=
  match env.ink with
  | .resp s b => if s = 200 ∧ ¬b.isEmpty then some b else afterInk env
  | .exc => afterInk env

/-- `render_mermaid_diagram`: `None` when the dependency flag is off;
method 1 (the CLI) succeeds when the process exited 0 and the output file is
non-empty, and every modelled failure (not found, timeout, non-zero exit,
empty output) falls through to method 2. -/
def render_mermaid_diagram (env : MermaidEnv) : Option (List Nat) :=
  if ¬env.mermaidAvailable then none
  else
    match env.cli with
    | .ran 0 out => if ¬out.isEmpty then some out else afterCli env
    | .ran _ _ => afterCli env
    | .notFound => afterCli env
    | .timeout => afterCli env

/-- Method 1 failed (no successful CLI run with non-empty output). -/
def cliFailed (c : CliOutcome) : Bool :=
  match c with
  | .ran 0 out => out.isEmpty
  | _ => true

/-- A network method failed (no 200 response with non-empty body). -/
def httpFailed (r : HttpOutcomeM) : Bool :=
  match r with
  | .resp s b => ¬(s = 200) || b.isEmpty
  | .exc => true

/-! ## Mermaid placeholder (`create_mermaid_placeholder` lines 855-879) -/

/-- `lines[0]` of the stripped diagram source (`mermaid_code.strip().split('\n')`,
first piece). -/
def mermaidFirstLine (mermaidCode : List Char) : List Char :=
  firstLineOf (pyStrip mermaidCode)

/-- Diagram type classified from the first line of the stripped source. -/
def mermaidDiagramType (mermaidCode : List Char) : List Char :=
  if List.isPrefixOf "graph".data (mermaidFirstLine mermaidCode) then "Flowchart".data
  else if List.isPrefixOf "sequenceDiagram".data (mermaidFirstLine mermaidCode) then
    "Sequence Diagram".data
  else if List.isPrefixOf "classDiagram".data (mermaidFirstLine mermaidCode) then
    "Class Diagram".data
  else if List.isPrefixOf "stateDiagram".data (mermaidFirstLine mermaidCode) then
    "State Diagram".data
  else if List.isPrefixOf "erDiagram".data (mermaidFirstLine mermaidCode) then
    "Entity Relationship Diagram".data
  else if List.isPrefixOf "journey".data (mermaidFirstLine mermaidCode) then
    "User Journey".data
  else if List.isPrefixOf "gantt".data (mermaidFirstLine mermaidCode) then "Gantt Chart".data
  else if List.isPrefixOf "pie".data (mermaidFirstLine mermaidCode) then "Pie Chart".data
  else "Diagram".data

/-- `create_mermaid_placeholder`: the bracketed placeholder string
`f"[{diagram_type} - Mermaid diagram rendering not available]"`. -/
def create_mermaid_placeholder (mermaidCode : List Char) : List Char :=
  '[' :: (mermaidDiagramType mermaidCode ++ " - Mermaid diagram rendering not available]".data)

/-- The element the ReportLab assembler appends for a mermaid code block
(lines 1107-1144): the rendered image when the chain returned bytes and the
image flowable could be built, otherwise a placeholder paragraph. -/
inductive PdfElem where
  | image (bytes : List Nat)
  | placeholderPara (text : List Char)
  deriving Repr, DecidableEq

/-- The mermaid branch of the assembler: `imgAddOk` is whether building the
ReportLab image flowable from the returned bytes succeeds (its `except`
handler also degrades to the placeholder). -/
def mermaidBlockElement (env : MermaidEnv) (imgAddOk : Bool) (code : List Char) : PdfElem :=
  match render_mermaid_diagram env with
  | some b => if imgAddOk then .image b else .placeholderPara (create_mermaid_placeholder code)
  | none => .placeholderPara (create_mermaid_placeholder code)

/-! ## Backend fallback orchestrators -/

/-- A Python exception as seen by the endpoint handlers: `RuntimeError`
(mapped to HTTP 503) or any other `Exception` (mapped to HTTP 500). -/
inductive Exc where
  | runtimeError (msg : List Char)
  | other (msg : List Char)
  deriving Repr, DecidableEq

/-- The message of the `RuntimeError` raised by `markdown_to_pdf_bytes` when
neither PDF backend is available. -/
def pdfUnavailableMsg : List Char :=
  ("PDF rendering is not available. Neither WeasyPrint nor ReportLab is installed. "
    ++ "Please install ReportLab (pip install reportlab) or use DOCX rendering instead.").data

/-- `markdown_to_pdf_bytes` (lines 1265-1281): try WeasyPrint when available,
else ReportLab when available, else raise `RuntimeError`.  The two backends
are oracles producing the artifact bytes or raising. -/
def markdown_to_pdf_bytes (weasyAvail reportlabAvail : Bool)
    (weasy reportlab : List Char → Except Exc (List Nat)) (md : List Char) :
    Except Exc (List Nat) :=
  if weasyAvail then weasy md
  else if reportlabAvail then reportlab md
  else .error (.runtimeError pdfUnavailableMsg)

/-- An HTTP response of one endpoint: a 200 with the artifact bytes, or an
`HTTPException` with status and detail. -/
inductive HttpResult where
  | ok (bytes : List Nat)
  | httpError (status : ℕ) (detail : List Char)
  deriving Repr, DecidableEq

/-- `POST /render/pdf` (lines 1835-1850): `RuntimeError` becomes 503, any
other exception becomes 500 with a prefixed detail. -/
def render_pdf (weasyAvail reportlabAvail : Bool)
    (weasy reportlab : List Char → Except Exc (List Nat)) (md : List Char) :
    HttpResult :=
  match markdown_to_pdf_bytes weasyAvail reportlabAvail weasy reportlab md with
  | .ok b => .ok b
  | .error (.runtimeError m) => .httpError 503 m
  | .error (.other m) => .httpError 500 ("PDF rendering error: ".data ++ m)

/-- The DOCX conversion environment: the two startup capability flags, the
pandoc and python-docx backend oracles, and the zip parser used by
`validate_docx_file` (the bytes of a well-formed archive map to its name
list; unparseable bytes raise). -/
structure DocxEnv where
  pandocAvailable : Bool
  pythonDocxAvailable : Bool
  pandoc : List Char → Except Exc (List Nat)
  pythonDocxSave : List Char → Except Exc (List Nat)
  zipNamelist : List Nat → Except Exc (List (List Char))

/-- `b'PK'`: the two ZIP signature bytes. -/
def pkPrefix (data : List Nat) : Bool :=
  List.isPrefixOf [80, 75] data

/-- The archive members a DOCX must contain. -/
def requiredDocxFiles : List (List Char) :=
  ["[Content_Types].xml".data, "word/document.xml".data]

/-- `validate_docx_file` (lines 827-852): false when empty, false without
the `PK` signature, false when the zip fails to parse or misses a required
member, true otherwise. -/
def validate_docx_file (env : DocxEnv) (data : List Nat) : Bool :=
  if data.isEmpty then false
  else if ¬pkPrefix data then false
  else
    match env.zipNamelist data with
    | .error _ => false
    | .ok names => requiredDocxFiles.all fun f => names.contains f

/-- The substitute document for blank input (lines 1376-1378). -/
def emptyDocumentText : List Char :=
  "# Empty Document\n\nThis document contains no content.".data

/-- Message of the `RuntimeError` re-raised when the python-docx save path
fails (`"Failed to save DOCX: ..."`). -/
def failedSaveMsg : List Char := "Failed to save DOCX".data

/-- Message of the final `RuntimeError` when no DOCX backend exists. -/
def noDocxBackendMsg : List Char :=
  "No DOCX backend available. Install pypandoc (recommended) or python-docx.".data

/-- The python-docx fallback (lines 1441-1617): build and save the document
(oracle), then validate: an empty result or a missing `PK` signature raises
`RuntimeError` inside the `try`, and every exception of the block is
re-raised as `RuntimeError("Failed to save DOCX: ...")`. -/
def pythonDocxPathResult (env : DocxEnv) (md : List Char) : Except Exc (List Nat) :=
  match env.pythonDocxSave md with
  | .error _ => .error (.runtimeError failedSaveMsg)
  | .ok data =>
    if data.isEmpty then .error (.runtimeError failedSaveMsg)
    else if ¬pkPrefix data then .error (.runtimeError failedSaveMsg)
    else .ok data

/-- The pandoc attempt (lines 1380-1439): convert (oracle), then validate
with `validate_docx_file`; any raised exception or failed validation is
swallowed (`except ... pass`) so the caller falls through to the fallback. -/
def pandocAttempt (env : DocxEnv) (md : List Char) : Option (List Nat) :=
  match env.pandoc md with
  | .error _ => none
  | .ok data => if validate_docx_file env data then some data else none

/-- Lines 1376-1378: the markdown actually rendered — blank input is
replaced by the fixed substitute document. -/
def mdSubst (mdIn : List Char) : List Char :=
  if pyIsBlank mdIn then emptyDocumentText else mdIn

/-- `markdown_to_docx_bytes` (lines 1371-1621): substitute the fixed text for
blank input, try pandoc when available, fall back to python-docx when
available, else raise `RuntimeError`. -/
def markdown_to_docx_bytes (env : DocxEnv) (mdIn : List Char) : Except Exc (List Nat) :=
  match (if env.pandocAvailable then pandocAttempt env (mdSubst mdIn) else none) with
  | some data => .ok data
  | none =>
    if env.pythonDocxAvailable then pythonDocxPathResult env (mdSubst mdIn)
    else .error (.runtimeError noDocxBackendMsg)

/-- `POST /render/docx` (lines 1853-1879): convert, re-validate the produced
bytes (500 `"Generated DOCX file is corrupted"` on failure), map
`RuntimeError` to 503 and any other exception to 500. -/
def render_docx (env : DocxEnv) (md : List Char) : HttpResult :=
  match markdown_to_docx_bytes env md with
  | .error (.runtimeError m) => .httpError 503 m
  | .error (.other m) => .httpError 500 ("DOCX rendering error: ".data ++ m)
  | .ok b =>
    if validate_docx_file env b then .ok b
    else .httpError 500 "Generated DOCX file is corrupted".data

/-! ## Helper lemmas -/

/-- A successful `validate_docx_file` implies a non-empty artifact carrying
the `PK` signature. -/
theorem validate_docx_file_nonempty_pk {env : DocxEnv} {data : List Nat}
    (h : validate_docx_file env data = true) : ¬data.isEmpty ∧ pkPrefix data = true := by
  unfold validate_docx_file at h
  split_ifs at h with h1 h2
  · exact ⟨h1, by simpa using h2⟩

/-- Every `.ok` result of the DOCX conversion is non-empty and starts with
the `PK` signature, whichever backend produced it. -/
theorem markdown_to_docx_bytes_ok_valid {env : DocxEnv} {md : List Char} {b : List Nat}
    (h : markdown_to_docx_bytes env md = .ok b) : ¬b.isEmpty ∧ pkPrefix b = true := by
  unfold markdown_to_docx_bytes at h
  rcases hpa : (if env.pandocAvailable then pandocAttempt env (mdSubst md) else none)
    with _ | data
  · rw [hpa] at h
    simp only at h
    split_ifs at h with hpy
    · unfold pythonDocxPathResult at h
      rcases hsave : env.pythonDocxSave (mdSubst md) with e | data2
      · rw [hsave] at h; exact absurd h (by simp)
      · rw [hsave] at h
        dsimp only at h
        split_ifs at h with he hpk
        cases h
        exact ⟨he, by simpa using hpk⟩
  · rw [hpa] at h
    simp only at h
    cases h
    split_ifs at hpa with hav
    · unfold pandocAttempt at hpa
      rcases hpd : env.pandoc (mdSubst md) with e | data2
      · rw [hpd] at hpa; exact absurd hpa (by simp)
      · rw [hpd] at hpa
        dsimp only at hpa
        split_ifs at hpa with hval
        cases hpa
        exact validate_docx_file_nonempty_pk hval

/-! ## Claims -/

/-- C1: for each format, when only the fallback backend is available the
orchestrator returns exactly the fallback's outcome (so the primary oracle is
never consulted), and when neither backend is available the conversion raises
`RuntimeError` and the endpoint answers 503. -/
theorem c1_backend_fallback_orchestration :
    (∀ (weasy reportlab : List Char → Except Exc (List Nat)) (md : List Char),
      markdown_to_pdf_bytes false true weasy reportlab md = reportlab md) ∧
    (∀ (weasy reportlab : List Char → Except Exc (List Nat)) (md : List Char),
      markdown_to_pdf_bytes false false weasy reportlab md
          = .error (.runtimeError pdfUnavailableMsg) ∧
      render_pdf false false weasy reportlab md = .httpError 503 pdfUnavailableMsg) ∧
    (∀ (pandoc pythonDocxSave : List Char → Except Exc (List Nat))
        (zipNamelist : List Nat → Except Exc (List (List Char))) (md : List Char),
      markdown_to_docx_bytes ⟨false, true, pandoc, pythonDocxSave, zipNamelist⟩ md
          = pythonDocxPathResult ⟨false, true, pandoc, pythonDocxSave, zipNamelist⟩
              (mdSubst md)) ∧
    (∀ (pandoc pythonDocxSave : List Char → Except Exc (List Nat))
        (zipNamelist : List Nat → Except Exc (List (List Char))) (md : List Char),
      markdown_to_docx_bytes ⟨false, false, pandoc, pythonDocxSave, zipNamelist⟩ md
          = .error (.runtimeError noDocxBackendMsg) ∧
      render_docx ⟨false, false, pandoc, pythonDocxSave, zipNamelist⟩ md
          = .httpError 503 noDocxBackendMsg) := by
  refine ⟨fun w r md => rfl, fun w r md => ⟨rfl, rfl⟩, fun pd ps z md => rfl,
    fun pd ps z md => ⟨rfl, rfl⟩⟩

/-- C4: separator rows never survive the row filter, and both table builders
decline to produce a table exactly when fewer than two rows (one header plus
one data row) survive. -/
theorem c4_separator_removal_before_count (tls : List (List Char)) :
    (∀ cs ∈ tableRows tls, rowIsSeparator cs = false) ∧
    (parse_markdown_table tls = none ↔ (tableRows tls).length < 2) ∧
    (docxAddTable tls = none ↔ (tableRows tls).length < 2) := by
  refine ⟨?_, ?_, ?_⟩
  · intro cs hcs
    unfold tableRows at hcs
    have := (List.mem_filter.mp hcs).2
    simp only [Bool.and_eq_true] at this
    simpa using this.2
  · unfold parse_markdown_table
    by_cases he : tls.isEmpty
    · have : tls = [] := by simpa [List.isEmpty_iff] using he
      subst this
      simp [tableRows]
    · simp only [he, if_false, Bool.false_eq_true]
      split_ifs with hlen
      · simpa using hlen
      · simpa using hlen
  · unfold docxAddTable
    split_ifs with hlen
    · simpa using hlen
    · simpa using hlen

/-- C5 counterexample: the middle empty cell of `| a |  | b |` is dropped by
the row parser, not preserved. -/
theorem c5_counterexample :
    parseRow ("| a |  | b |".data) = ["a".data, "b".data] ∧
    parseRow ("| a |  | b |".data) ≠ ["a".data, [], "b".data] := by
  constructor <;> decide

/-- C5 amended: row parsing splits on the pipe, trims every piece, and keeps
exactly the pieces that are non-empty after trimming — so every empty piece,
including an empty interior cell, is discarded, and every parsed cell is
non-empty. -/
theorem c5_row_parsing_drops_all_empty (line : List Char) :
    List.Sublist (parseRow line) ((line.splitOn '|').map pyStrip) ∧
    (∀ c, c ∈ parseRow line ↔ c ∈ (line.splitOn '|').map pyStrip ∧ ¬c.isEmpty) ∧
    (∀ c ∈ parseRow line, ¬c.isEmpty) := by
  refine ⟨List.filter_sublist _, ?_, ?_⟩
  · intro c
    unfold parseRow
    constructor
    · intro h
      have := List.mem_filter.mp h
      exact ⟨this.1, by simpa using this.2⟩
    · intro ⟨h1, h2⟩
      exact List.mem_filter.mpr ⟨h1, by simpa using h2⟩
  · intro c hc
    have := (List.mem_filter.mp hc).2
    simpa using this

/-- C2 counterexample: on the PDF path a succeeding backend's artifact is
returned to the caller with no validation at all — an empty byte string is
passed straight through as a 200 response. -/
theorem c2_counterexample :
    markdown_to_pdf_bytes true false (fun _ => .ok []) (fun _ => .ok [])
        ("# Title".data) = .ok [] ∧
    render_pdf true false (fun _ => .ok []) (fun _ => .ok [])
        ("# Title".data) = .ok [] := by
  exact ⟨rfl, rfl⟩

/-- C2 amended: the validation gate exists only on the DOCX path — every
DOCX artifact handed back is non-empty and starts with the ZIP `PK`
signature, and a pandoc artifact failing validation advances to the
python-docx fallback; PDF artifacts are returned without validation. -/
theorem c2_docx_validation_gate (env : DocxEnv) (md : List Char) :
    (∀ b, markdown_to_docx_bytes env md = .ok b → ¬b.isEmpty ∧ pkPrefix b = true) ∧
    (∀ data, env.pandocAvailable = true →
      env.pandoc (mdSubst md) = .ok data →
      validate_docx_file env data = false →
      markdown_to_docx_bytes env md =
        (if env.pythonDocxAvailable then pythonDocxPathResult env (mdSubst md)
         else .error (.runtimeError noDocxBackendMsg))) := by
  constructor
  · intro b h
    exact markdown_to_docx_bytes_ok_valid h
  · intro data hav hpd hval
    unfold markdown_to_docx_bytes
    rw [if_pos hav]
    unfold pandocAttempt
    rw [hpd]
    dsimp only
    rw [hval]
    simp

/-- C10: blank (empty or whitespace-only) markdown is replaced by the fixed
substitute document before any backend runs, and any successful result is a
valid non-empty DOCX artifact. -/
theorem c10_blank_input_substitution (env : DocxEnv) (md : List Char)
    (h : pyIsBlank md = true) :
    markdown_to_docx_bytes env md = markdown_to_docx_bytes env emptyDocumentText ∧
    (∀ b, markdown_to_docx_bytes env md = .ok b → ¬b.isEmpty ∧ pkPrefix b = true) := by
  constructor
  · unfold markdown_to_docx_bytes mdSubst
    rw [if_pos h, if_neg (by decide : ¬pyIsBlank emptyDocumentText = true)]
  · intro b hb
    exact markdown_to_docx_bytes_ok_valid hb

/-- A character that fails a character predicate which another character
satisfies is a different character (stated on `==` for guard rewriting). -/
theorem beq_false_of_pred {c d : Char} (hc : c.isDigit = true) (hd : d.isDigit = false) :
    (d == c) = false := by
  rw [beq_eq_false_iff_ne]
  intro he
  subst he
  rw [hc] at hd
  cases hd

/-- The PDF assembler recognizes a heading exactly on a run of 1-4 `#`
followed by a space. -/
theorem pdf_heading_iff (line : List Char) :
    (∃ lvl text, pdfClassifyLine line = .heading lvl text) ↔
      ∃ n, 1 ≤ n ∧ n ≤ 4 ∧ (List.replicate n '#' ++ [' ']) <+: line := by
  constructor
  · rintro ⟨lvl, text, h⟩
    unfold pdfClassifyLine at h
    split_ifs at h with h1 h2 h3 h4 h5 h6 h7
    · exact ⟨4, by norm_num, by norm_num,
        (show "#### ".data = List.replicate 4 '#' ++ [' '] by decide) ▸
          List.isPrefixOf_iff_prefix.mp h4⟩
    · exact ⟨3, by norm_num, by norm_num,
        (show "### ".data = List.replicate 3 '#' ++ [' '] by decide) ▸
          List.isPrefixOf_iff_prefix.mp h5⟩
    · exact ⟨2, by norm_num, by norm_num,
        (show "## ".data = List.replicate 2 '#' ++ [' '] by decide) ▸
          List.isPrefixOf_iff_prefix.mp h6⟩
    · exact ⟨1, by norm_num, by norm_num,
        (show "# ".data = List.replicate 1 '#' ++ [' '] by decide) ▸
          List.isPrefixOf_iff_prefix.mp h7⟩
  · rintro ⟨n, hn1, hn4, t, ht⟩
    subst ht
    interval_cases n
    · exact ⟨1, pyStrip t, by unfold pdfClassifyLine; simp [List.isPrefixOf]⟩
    · exact ⟨2, pyStrip t, by unfold pdfClassifyLine; simp [List.isPrefixOf]⟩
    · exact ⟨3, pyStrip t, by unfold pdfClassifyLine; simp [List.isPrefixOf]⟩
    · exact ⟨4, pyStrip t, by unfold pdfClassifyLine; simp [List.isPrefixOf]⟩

set_option maxHeartbeats 1000000 in
/-- The DOCX assembler recognizes a heading exactly on a run of 1-6 `#`
followed by a space. -/
theorem docx_heading_iff (line : List Char) :
    (∃ lvl text, docxClassifyLine line = .heading lvl text) ↔
      ∃ n, 1 ≤ n ∧ n ≤ 6 ∧ (List.replicate n '#' ++ [' ']) <+: line := by
  constructor
  · rintro ⟨lvl, text, h⟩
    unfold docxClassifyLine at h
    by_cases h1 : line.isEmpty = true
    · rw [if_pos h1] at h; cases h
    rw [if_neg h1] at h
    by_cases h2 : '|' ∈ line ∧ ¬"#".data.isPrefixOf line = true
    · rw [if_pos h2] at h; cases h
    rw [if_neg h2] at h
    by_cases h3 : "# ".data.isPrefixOf line = true
    · exact ⟨1, by norm_num, by norm_num,
        (show "# ".data = List.replicate 1 '#' ++ [' '] by decide) ▸
          List.isPrefixOf_iff_prefix.mp h3⟩
    rw [if_neg h3] at h
    by_cases h4 : "## ".data.isPrefixOf line = true
    · exact ⟨2, by norm_num, by norm_num,
        (show "## ".data = List.replicate 2 '#' ++ [' '] by decide) ▸
          List.isPrefixOf_iff_prefix.mp h4⟩
    rw [if_neg h4] at h
    by_cases h5 : "### ".data.isPrefixOf line = true
    · exact ⟨3, by norm_num, by norm_num,
        (show "### ".data = List.replicate 3 '#' ++ [' '] by decide) ▸
          List.isPrefixOf_iff_prefix.mp h5⟩
    rw [if_neg h5] at h
    by_cases h6 : "#### ".data.isPrefixOf line = true
    · exact ⟨4, by norm_num, by norm_num,
        (show "#### ".data = List.replicate 4 '#' ++ [' '] by decide) ▸
          List.isPrefixOf_iff_prefix.mp h6⟩
    rw [if_neg h6] at h
    by_cases h7 : "##### ".data.isPrefixOf line = true
    · exact ⟨5, by norm_num, by norm_num,
        (show "##### ".data = List.replicate 5 '#' ++ [' '] by decide) ▸
          List.isPrefixOf_iff_prefix.mp h7⟩
    rw [if_neg h7] at h
    by_cases h8 : "###### ".data.isPrefixOf line = true
    · exact ⟨6, by norm_num, by norm_num,
        (show "###### ".data = List.replicate 6 '#' ++ [' '] by decide) ▸
          List.isPrefixOf_iff_prefix.mp h8⟩
    rw [if_neg h8] at h
    by_cases h9 : "- ".data.isPrefixOf line = true ∨ "* ".data.isPrefixOf line = true
    · rw [if_pos h9] at h; cases h
    rw [if_neg h9] at h
    by_cases h10 : pyTake2IsDigit line = true ∧ (slice24 line = ". ".data ∨ slice24 line = ") ".data)
    · rw [if_pos h10] at h; cases h
    rw [if_neg h10] at h
    by_cases h11 : line = "---".data ∨ line = "***".data ∨ line = "___".data
    · rw [if_pos h11] at h; cases h
    rw [if_neg h11] at h
    cases h
  · rintro ⟨n, hn1, hn6, t, ht⟩
    subst ht
    interval_cases n
    · exact ⟨1, t, by unfold docxClassifyLine; simp [List.isPrefixOf]⟩
    · exact ⟨2, t, by unfold docxClassifyLine; simp [List.isPrefixOf]⟩
    · exact ⟨3, t, by unfold docxClassifyLine; simp [List.isPrefixOf]⟩
    · exact ⟨4, t, by unfold docxClassifyLine; simp [List.isPrefixOf]⟩
    · exact ⟨5, t, by unfold docxClassifyLine; simp [List.isPrefixOf]⟩
    · exact ⟨6, t, by unfold docxClassifyLine; simp [List.isPrefixOf]⟩

/-- C6 counterexample: in the DOCX block-assembler path a line with five
leading `#` characters followed by a space IS classified as a heading
(level 5), contradicting the claim that it is not a heading there. -/
theorem c6_counterexample :
    docxClassifyLine ("##### Heading".data) = DocxLineKind.heading 5 ("Heading".data) := by
  decide

/-- C6 amended: the PDF block-assembler path recognizes a heading exactly
when the (stripped) line begins with a run of 1 to 4 `#` characters followed
by a space, while the DOCX path recognizes a run of 1 to 6 `#` characters
followed by a space. -/
theorem c6_heading_recognition (line : List Char) :
    ((∃ lvl text, pdfClassifyLine line = .heading lvl text) ↔
      ∃ n, 1 ≤ n ∧ n ≤ 4 ∧ (List.replicate n '#' ++ [' ']) <+: line) ∧
    ((∃ lvl text, docxClassifyLine line = .heading lvl text) ↔
      ∃ n, 1 ≤ n ∧ n ≤ 6 ∧ (List.replicate n '#' ++ [' ']) <+: line) :=
  ⟨pdf_heading_iff line, docx_heading_iff line⟩

/-- A digit line `d. text` is a numbered item for the PDF assembler when the
tail holds no pipe. -/
theorem pdfClassify_numbered_aux {d : Char} (hd : d ∈ digits19) (t : List Char)
    (ht : '|' ∉ t) :
    pdfClassifyLine (d :: '.' :: ' ' :: t) = .numbered (d :: '.' :: ' ' :: t) := by
  fin_cases hd <;> (unfold pdfClassifyLine; simp [digits19, List.isPrefixOf, ht])

/-- A two-digit line `dd. text` or `dd) text` is a numbered item for the DOCX
assembler when the tail holds no pipe. -/
theorem docxClassify_numbered_aux {d0 d1 c : Char} (hd0 : d0.isDigit = true)
    (hd1 : d1.isDigit = true) (hc : c = '.' ∨ c = ')') (t : List Char)
    (ht : '|' ∉ t) :
    docxClassifyLine (d0 :: d1 :: c :: ' ' :: t)
      = .numbered (afterFirstSpace (d0 :: d1 :: c :: ' ' :: t)) := by
  have f1 : ('#' == d0) = false := beq_false_of_pred hd0 (by decide)
  have f2 : ('-' == d0) = false := beq_false_of_pred hd0 (by decide)
  have f3 : ('*' == d0) = false := beq_false_of_pred hd0 (by decide)
  have hne : ¬d0 = '|' := by
    intro he
    rw [he] at hd0
    exact absurd hd0 (by decide)
  have hne1 : ¬d1 = '|' := by
    intro he
    rw [he] at hd1
    exact absurd hd1 (by decide)
  rcases hc with rfl | rfl <;>
    (unfold docxClassifyLine
     simp [List.isPrefixOf, pyTake2IsDigit, slice24, ht, hd0, hd1, f1, f2, f3,
       Ne.symm hne, Ne.symm hne1, show ". ".data = ['.', ' '] by decide,
       show ") ".data = [')', ' '] by decide])

/-- The PDF assembler emits a numbered item exactly on a `d. ` prefix with a
single digit 1-9. -/
theorem pdf_numbered_iff (line : List Char) (hpipe : '|' ∉ line) :
    (∃ text, pdfClassifyLine line = .numbered text) ↔
      ∃ d, d ∈ digits19 ∧ [d, '.', ' '] <+: line := by
  constructor
  · rintro ⟨text, h⟩
    unfold pdfClassifyLine at h
    split_ifs at h with h1 h2 h3 h4 h5 h6 h7 h8 h9
    obtain ⟨d, hd, hp⟩ := List.any_eq_true.mp h9
    exact ⟨d, hd, List.isPrefixOf_iff_prefix.mp hp⟩
  · rintro ⟨d, hd, t, ht⟩
    subst ht
    have ht2 : '|' ∉ t := fun hm => hpipe (List.mem_append_right _ hm)
    exact ⟨d :: '.' :: ' ' :: t, pdfClassify_numbered_aux hd t ht2⟩

set_option maxHeartbeats 1000000 in
/-- The DOCX assembler emits a numbered item exactly when the first two
characters are digits followed by `. ` or `) `. -/
theorem docx_numbered_iff (line : List Char) (hpipe : '|' ∉ line) :
    (∃ text, docxClassifyLine line = .numbered text) ↔
      ∃ d0 d1 rest, d0.isDigit = true ∧ d1.isDigit = true ∧
        (line = d0 :: d1 :: '.' :: ' ' :: rest ∨
         line = d0 :: d1 :: ')' :: ' ' :: rest) := by
  constructor
  · rintro ⟨text, h⟩
    unfold docxClassifyLine at h
    by_cases h1 : line.isEmpty = true
    · rw [if_pos h1] at h; cases h
    rw [if_neg h1] at h
    by_cases h2 : '|' ∈ line ∧ ¬"#".data.isPrefixOf line = true
    · rw [if_pos h2] at h; cases h
    rw [if_neg h2] at h
    by_cases h3 : "# ".data.isPrefixOf line = true
    · rw [if_pos h3] at h; cases h
    rw [if_neg h3] at h
    by_cases h4 : "## ".data.isPrefixOf line = true
    · rw [if_pos h4] at h; cases h
    rw [if_neg h4] at h
    by_cases h5 : "### ".data.isPrefixOf line = true
    · rw [if_pos h5] at h; cases h
    rw [if_neg h5] at h
    by_cases h6 : "#### ".data.isPrefixOf line = true
    · rw [if_pos h6] at h; cases h
    rw [if_neg h6] at h
    by_cases h7 : "##### ".data.isPrefixOf line = true
    · rw [if_pos h7] at h; cases h
    rw [if_neg h7] at h
    by_cases h8 : "###### ".data.isPrefixOf line = true
    · rw [if_pos h8] at h; cases h
    rw [if_neg h8] at h
    by_cases h9 : "- ".data.isPrefixOf line = true ∨ "* ".data.isPrefixOf line = true
    · rw [if_pos h9] at h; cases h
    rw [if_neg h9] at h
    by_cases h10 : pyTake2IsDigit line = true ∧ (slice24 line = ". ".data ∨ slice24 line = ") ".data)
    case neg =>
      rw [if_neg h10] at h
      by_cases h11 : line = "---".data ∨ line = "***".data ∨ line = "___".data
      · rw [if_pos h11] at h; cases h
      · rw [if_neg h11] at h; cases h
    case pos =>
      obtain ⟨hdig, hslice⟩ := h10
      rcases line with - | ⟨c0, - | ⟨c1, - | ⟨c2, - | ⟨c3, rest⟩⟩⟩⟩
      · simp [slice24] at hslice
      · simp [slice24] at hslice
      · simp [slice24] at hslice
      · simp [slice24] at hslice
      · simp only [pyTake2IsDigit, List.take, List.all, Bool.and_eq_true] at hdig
        simp only [slice24, List.drop, List.take] at hslice
        refine ⟨c0, c1, rest, hdig.2.1, hdig.2.2.1, ?_⟩
        rcases hslice with hs | hs
        · left
          simp only [List.cons.injEq, and_true] at hs
          rw [hs.1, hs.2]
        · right
          simp only [List.cons.injEq, and_true] at hs
          rw [hs.1, hs.2]
  · rintro ⟨d0, d1, rest, hd0, hd1, hsh | hsh⟩ <;> subst hsh
    · have ht2 : '|' ∉ rest := fun hm => hpipe (by simp [hm])
      exact ⟨_, docxClassify_numbered_aux hd0 hd1 (Or.inl rfl) rest ht2⟩
    · have ht2 : '|' ∉ rest := fun hm => hpipe (by simp [hm])
      exact ⟨_, docxClassify_numbered_aux hd0 hd1 (Or.inr rfl) rest ht2⟩

/-- `dropWhile` is the identity on a list none of whose elements satisfy the
predicate. -/
theorem dropWhile_eq_self_of_none {p : Char → Bool} {l : List Char}
    (h : ∀ c ∈ l, p c = false) : l.dropWhile p = l := by
  cases l with
  | nil => rfl
  | cons a t =>
    rw [List.dropWhile_cons_of_neg]
    simp [h a (by simp)]

/-- A non-empty whitespace-free prefix survives Python `strip()`. -/
theorem prefix_pyStrip {P l : List Char} (hP : ∀ c ∈ P, pyIsSpace c = false)
    (hne : P ≠ []) (h : P <+: l) : P <+: pyStrip l := by
  obtain ⟨t, rfl⟩ := h
  unfold pyStrip
  have hl : (P ++ t).dropWhile pyIsSpace = P ++ t := by
    cases P with
    | nil => exact absurd rfl hne
    | cons a P2 =>
      rw [List.cons_append, List.dropWhile_cons_of_neg]
      simp [hP a (by simp)]
  rw [hl, List.reverse_append, List.dropWhile_append]
  split_ifs with hcase
  · have hrev : P.reverse.dropWhile pyIsSpace = P.reverse :=
      dropWhile_eq_self_of_none fun c hc => hP c (List.mem_reverse.mp hc)
    rw [hrev, List.reverse_reverse]
  · rw [List.reverse_append, List.reverse_reverse]
    exact ⟨(t.reverse.dropWhile pyIsSpace).reverse, rfl⟩

/-- `takeWhile` walks through a prefix all of whose elements satisfy the
predicate. -/
theorem takeWhile_append_of_all {p : Char → Bool} {P : List Char} (t : List Char)
    (h : ∀ c ∈ P, p c = true) : (P ++ t).takeWhile p = P ++ t.takeWhile p := by
  induction P with
  | nil => rfl
  | cons a P2 ih =>
    rw [List.cons_append, List.takeWhile_cons_of_pos (h a (by simp)),
      ih fun c hc => h c (by simp [hc]), List.cons_append]

/-- A newline-free prefix survives taking the first line. -/
theorem prefix_firstLineOf {P l : List Char}
    (hP : ∀ c ∈ P, (fun c => decide (c ≠ '\n')) c = true) (h : P <+: l) :
    P <+: firstLineOf l := by
  obtain ⟨t, rfl⟩ := h
  unfold firstLineOf
  rw [takeWhile_append_of_all t hP]
  exact ⟨t.takeWhile fun c => c ≠ '\n', rfl⟩

/-- C9: a diagram source whose first line starts with `sequenceDiagram`
yields the `Sequence Diagram` placeholder when all render methods fail, and
for every source the placeholder is a bracketed string containing the
descriptive text `Mermaid diagram rendering not available`. -/
theorem c9_placeholder_classification (src : List Char) :
    ("sequenceDiagram".data <+: firstLineOf src →
      create_mermaid_placeholder src
        = "[Sequence Diagram - Mermaid diagram rendering not available]".data) ∧
    (create_mermaid_placeholder src).head? = some '[' ∧
    " - Mermaid diagram rendering not available]".data <:+
      create_mermaid_placeholder src := by
  refine ⟨?_, ?_, ?_⟩
  · intro hseq
    have h1 : "sequenceDiagram".data <+: src :=
      hseq.trans (List.takeWhile_prefix _)
    have h2 : "sequenceDiagram".data <+: pyStrip src :=
      prefix_pyStrip (by decide) (by decide) h1
    have h3 : "sequenceDiagram".data <+: mermaidFirstLine src :=
      prefix_firstLineOf (by decide) h2
    obtain ⟨t2, ht2⟩ := h3
    unfold create_mermaid_placeholder mermaidDiagramType
    rw [← ht2]
    rw [if_neg ?_, if_pos ?_]
    · decide
    · rw [show "sequenceDiagram".data = ['s', 'e', 'q', 'u', 'e', 'n', 'c', 'e',
        'D', 'i', 'a', 'g', 'r', 'a', 'm'] from by decide]
      simp [List.isPrefixOf]
    · rw [show "sequenceDiagram".data = ['s', 'e', 'q', 'u', 'e', 'n', 'c', 'e',
        'D', 'i', 'a', 'g', 'r', 'a', 'm'] from by decide,
        show "graph".data = ['g', 'r', 'a', 'p', 'h'] from by decide]
      simp [List.isPrefixOf]
  · rfl
  · exact ⟨'[' :: mermaidDiagramType src, rfl⟩

/-- A successful web-service fallback result is non-empty. -/
theorem afterInk_some_nonempty {env : MermaidEnv} {b : List Nat}
    (h : afterInk env = some b) : ¬b.isEmpty := by
  unfold afterInk at h
  rcases hkr : env.kroki with ⟨st, body⟩ | - <;> rw [hkr] at h <;> dsimp only at h
  · split_ifs at h with hc
    cases h
    exact hc.2
  · cases h

/-- A successful result of methods 2-3 is non-empty. -/
theorem afterCli_some_nonempty {env : MermaidEnv} {b : List Nat}
    (h : afterCli env = some b) : ¬b.isEmpty := by
  unfold afterCli at h
  rcases hink : env.ink with ⟨st, body⟩ | - <;> rw [hink] at h <;> dsimp only at h
  · split_ifs at h with hc
    · cases h
      exact hc.2
    · exact afterInk_some_nonempty h
  · exact afterInk_some_nonempty h

/-- C8: the diagram render chain degrades method by method — a failed CLI
attempt falls to the first web service, a failed first web service to the
second, a failed second to `None`; when the chain returns `None` the
assembler emits the textual placeholder paragraph (never an exception, never
an artifact), and any bytes the chain does return are non-empty. -/
theorem c8_diagram_chain_degrades (env : MermaidEnv) (code : List Char)
    (imgAddOk : Bool) :
    (env.mermaidAvailable = true → cliFailed env.cli = true →
      render_mermaid_diagram env = afterCli env) ∧
    (httpFailed env.ink = true → afterCli env = afterInk env) ∧
    (httpFailed env.kroki = true → afterInk env = none) ∧
    (render_mermaid_diagram env = none →
      mermaidBlockElement env imgAddOk code
        = .placeholderPara (create_mermaid_placeholder code)) ∧
    (∀ b, render_mermaid_diagram env = some b → ¬b.isEmpty) := by
  refine ⟨?_, ?_, ?_, ?_, ?_⟩
  · intro hav hfail
    unfold render_mermaid_diagram
    rw [if_neg (by simp [hav])]
    unfold cliFailed at hfail
    rcases hcli : env.cli with - | - | ⟨code2, out⟩
    · rfl
    · rfl
    · rw [hcli] at hfail
      rcases code2 with - | c2
      · have hfail2 : out.isEmpty = true := hfail
        show (if ¬out.isEmpty = true then some out else afterCli env) = afterCli env
        rw [if_neg (by simp [hfail2])]
      · rfl
  · intro hfail
    unfold httpFailed at hfail
    unfold afterCli
    rcases hink : env.ink with ⟨st, body⟩ | - <;> rw [hink] at hfail <;> dsimp only
    have hcond : ¬(st = 200 ∧ ¬body.isEmpty = true) := by
      rintro ⟨h200, hbody⟩
      subst h200
      simp at hfail
      exact hbody (by simp [hfail])
    rw [if_neg hcond]
  · intro hfail
    unfold httpFailed at hfail
    unfold afterInk
    rcases hkr : env.kroki with ⟨st, body⟩ | - <;> rw [hkr] at hfail <;> dsimp only
    have hcond : ¬(st = 200 ∧ ¬body.isEmpty = true) := by
      rintro ⟨h200, hbody⟩
      subst h200
      simp at hfail
      exact hbody (by simp [hfail])
    rw [if_neg hcond]
  · intro hnone
    unfold mermaidBlockElement
    rw [hnone]
  · intro b hb
    unfold render_mermaid_diagram at hb
    split_ifs at hb with hav
    rcases hcli : env.cli with - | - | ⟨code2, out⟩
    · rw [hcli] at hb
      exact afterCli_some_nonempty hb
    · rw [hcli] at hb
      exact afterCli_some_nonempty hb
    · rw [hcli] at hb
      rcases code2 with - | c2
      · have hb2 : (if ¬out.isEmpty = true then some out else afterCli env) = some b := hb
        split_ifs at hb2 with hout
        · exact afterCli_some_nonempty hb2
        · cases hb2
          exact hout
      · exact afterCli_some_nonempty hb

/-- `availableWidth` is positive. -/
theorem availableWidth_pos : 0 < availableWidth := by
  norm_num [availableWidth, a4Width, pageLeftMargin, pageRightMargin]

/-- Sum of a list scaled pointwise by a constant. -/
theorem sum_map_mul_const (l : List ℚ) (c : ℚ) :
    (l.map fun w => w * c).sum = l.sum * c := by
  induction l with
  | nil => simp
  | cons a t ih => simp [ih, add_mul]

/-- An index in `narrowCols` has max content length at most 3. -/
theorem mem_narrowCols_getD {L : List ℕ} {i : ℕ} (h : i ∈ narrowCols L) :
    L.getD i 0 ≤ 3 := by
  unfold narrowCols at h
  obtain ⟨p, hp, rfl⟩ := List.mem_map.mp h
  obtain ⟨hpe, hple⟩ := List.mem_filter.mp hp
  have hg := List.mem_enum_iff_getElem?.mp hpe
  rw [List.getD_eq_getElem?_getD, hg]
  simpa using of_decide_eq_true hple

/-- An index in `mediumCols` has max content length at most 15. -/
theorem mem_mediumCols_getD {L : List ℕ} {i : ℕ} (h : i ∈ mediumCols L) :
    L.getD i 0 ≤ 15 := by
  unfold mediumCols at h
  obtain ⟨p, hp, rfl⟩ := List.mem_map.mp h
  obtain ⟨hpe, hple⟩ := List.mem_filter.mp hp
  have hg := List.mem_enum_iff_getElem?.mp hpe
  rw [List.getD_eq_getElem?_getD, hg]
  simpa using (of_decide_eq_true hple).2

/-- An index in `wideColsL` has max content length above 15. -/
theorem mem_wideColsL_getD {L : List ℕ} {i : ℕ} (h : i ∈ wideColsL L) :
    15 < L.getD i 0 := by
  unfold wideColsL at h
  obtain ⟨p, hp, rfl⟩ := List.mem_map.mp h
  obtain ⟨hpe, hple⟩ := List.mem_filter.mp hp
  have hg := List.mem_enum_iff_getElem?.mp hpe
  rw [List.getD_eq_getElem?_getD, hg]
  have h2 := of_decide_eq_true hple
  simp only [Option.getD_some]
  omega

/-- With at least one wide column the total wide weight is positive (each
wide column weighs at least 16). -/
theorem wideTotalWeight_pos {L : List ℕ} (h : ¬(wideColsL L).isEmpty = true) :
    0 < wideTotalWeight L := by
  unfold wideTotalWeight
  apply List.sum_pos
  · intro x hx
    obtain ⟨i, hi, rfl⟩ := List.mem_map.mp hx
    have h15 := mem_wideColsL_getD hi
    have h0 : 0 < L.getD i 0 := by omega
    exact_mod_cast h0
  · have hw : wideColsL L ≠ [] := by simpa [List.isEmpty_iff] using h
    simpa using hw

/-- Every pair of the raw width plan whose column is wide carries a width of
at most 80% of the available width. -/
theorem colWidthPairs_wide_le {L : List ℕ} {p : ℕ × ℚ} (hp : p ∈ colWidthPairs L)
    (hw : 15 < L.getD p.1 0) : p.2 ≤ availableWidth * (4 / 5) := by
  unfold colWidthPairs at hp
  by_cases hwc : (wideColsL L).isEmpty = true
  · rw [if_neg (by simp [hwc])] at hp
    rcases List.mem_append.mp hp with hp3 | hp4
    · obtain ⟨i, hi, rfl⟩ := List.mem_map.mp hp3
      have h3 := mem_narrowCols_getD hi
      have hw2 : 15 < L.getD i 0 := hw
      exact absurd hw2 (by omega)
    · obtain ⟨i, hi, rfl⟩ := List.mem_map.mp hp4
      have h3 := mem_mediumCols_getD hi
      have hw2 : 15 < L.getD i 0 := hw
      exact absurd hw2 (by omega)
  · rw [if_pos hwc] at hp
    rcases List.mem_append.mp hp with hp1 | hp4
    · rcases List.mem_append.mp hp1 with hp2 | hp3
      · obtain ⟨i, hi, rfl⟩ := List.mem_map.mp hp2
        show wideWidth L i ≤ _
        unfold wideWidth
        rw [if_pos (wideTotalWeight_pos hwc)]
        exact min_le_left _ _
      · obtain ⟨i, hi, rfl⟩ := List.mem_map.mp hp3
        have h3 := mem_narrowCols_getD hi
        have hw2 : 15 < L.getD i 0 := hw
        exact absurd hw2 (by omega)
    · obtain ⟨i, hi, rfl⟩ := List.mem_map.mp hp4
      have h3 := mem_mediumCols_getD hi
      have hw2 : 15 < L.getD i 0 := hw
      exact absurd hw2 (by omega)

/-- Zipping a list with its own image. -/
theorem zip_self_map {α β : Type _} (l : List α) (g : α → β) :
    l.zip (l.map g) = l.map fun a => (a, g a) := by
  have h := List.zip_map' id g l
  simpa using h

/-- The final column width plan never exceeds the available width in total:
either the safety scaling fires and the total becomes exactly the available
width, or it did not need to fire. -/
theorem colWidthsFinal_sum_le (L : List ℕ) :
    (colWidthsFinal L).sum ≤ availableWidth := by
  unfold colWidthsFinal
  split_ifs with h
  · rw [sum_map_mul_const]
    have hs : 0 < (rawColWidths L).sum := lt_trans availableWidth_pos h
    rw [mul_comm, div_mul_cancel₀ _ (ne_of_gt hs)]
  · exact le_of_not_lt h

/-- In the final width plan, the entry of every wide column stays at or below
80% of the available width (the scaling factor, when applied, lies in
`(0, 1)`). -/
theorem colWidthsFinal_wide_bound (L : List ℕ) :
    ∀ q ∈ (sortedWidthPairs L).zip (colWidthsFinal L),
      15 < L.getD q.1.1 0 → q.2 ≤ availableWidth * (4 / 5) := by
  intro q hq hwide
  have hperm : ∀ p ∈ sortedWidthPairs L, p ∈ colWidthPairs L := by
    intro p hp
    unfold sortedWidthPairs at hp
    exact (List.perm_insertionSort _ _).mem_iff.mp hp
  unfold colWidthsFinal at hq
  split_ifs at hq with hlt
  · unfold rawColWidths at hq
    rw [List.map_map, zip_self_map] at hq
    obtain ⟨p, hp, rfl⟩ := List.mem_map.mp hq
    simp only [Function.comp] at hwide ⊢
    have hb : p.2 ≤ availableWidth * (4 / 5) := colWidthPairs_wide_le (hperm p hp) hwide
    have hs : 0 < ((sortedWidthPairs L).map Prod.snd).sum := by
      have := lt_trans availableWidth_pos hlt
      unfold rawColWidths at this
      exact this
    have hf0 : 0 < availableWidth / ((sortedWidthPairs L).map Prod.snd).sum :=
      div_pos availableWidth_pos hs
    have hf1 : availableWidth / ((sortedWidthPairs L).map Prod.snd).sum < 1 := by
      rw [div_lt_one hs]
      unfold rawColWidths at hlt
      exact hlt
    rcases le_or_lt 0 p.2 with h0 | h0
    · have : p.2 * (availableWidth / ((sortedWidthPairs L).map Prod.snd).sum) ≤ p.2 := by
        nlinarith
      linarith
    · have : p.2 * (availableWidth / ((sortedWidthPairs L).map Prod.snd).sum) < 0 :=
        mul_neg_of_neg_of_pos h0 hf0
      have hcap : (0 : ℚ) ≤ availableWidth * (4 / 5) := by
        have := availableWidth_pos
        positivity
      linarith
  · unfold rawColWidths at hq
    rw [zip_self_map] at hq
    obtain ⟨p, hp, rfl⟩ := List.mem_map.mp hq
    exact colWidthPairs_wide_le (hperm p hp) hwide

/-- C3: for every table the parser accepts, the column width plan sums to at
most the available page width (A4 width minus the 20-point margins), and the
final width of every column classified wide (max content length above 15)
stays at or below 80% of the available width. -/
theorem c3_table_width_plan (tls : List (List Char)) (T : ParsedTable)
    (h : parse_markdown_table tls = some T) :
    T.colWidths.sum ≤ availableWidth ∧
    ∀ q ∈ (sortedWidthPairs T.maxLens).zip T.colWidths,
      15 < T.maxLens.getD q.1.1 0 → q.2 ≤ availableWidth * (4 / 5) := by
  unfold parse_markdown_table at h
  split_ifs at h with h1 h2
  cases h
  exact ⟨colWidthsFinal_sum_le _, colWidthsFinal_wide_bound _⟩

/-- C7 counterexample: `7) x` is NOT a numbered item in the PDF path (it is
emitted as a normal paragraph), and `1. x` is NOT a numbered item in the DOCX
path (it is emitted as a plain paragraph), contradicting the claim that both
are numbered items in both paths. -/
theorem c7_counterexample :
    pdfClassifyLine ("7) x".data) = PdfLineKind.normal ("7) x".data) ∧
    docxClassifyLine ("1. x".data) = DocxLineKind.paragraph ("1. x".data) := by
  constructor <;> decide

/-- C7 amended: on a non-table line, the PDF path recognizes a numbered item
exactly when the stripped line starts with one of `1. ` .. `9. ` (a single
digit 1-9, a period, a space), while the DOCX path recognizes one exactly
when the first two characters are digits and the following two characters
are `. ` or `) `. -/
theorem c7_numbered_item_recognition (line : List Char) (hpipe : '|' ∉ line) :
    ((∃ text, pdfClassifyLine line = .numbered text) ↔
      ∃ d, d ∈ digits19 ∧ [d, '.', ' '] <+: line) ∧
    ((∃ text, docxClassifyLine line = .numbered text) ↔
      ∃ d0 d1 rest, d0.isDigit = true ∧ d1.isDigit = true ∧
        (line = d0 :: d1 :: '.' :: ' ' :: rest ∨
         line = d0 :: d1 :: ')' :: ' ' :: rest)) :=
  ⟨pdf_numbered_iff line hpipe, docx_numbered_iff line hpipe⟩

/-! ## Witnesses: the claim theorems with hypotheses evaluated at concrete
inputs -/

/-- Witness for C2: a concrete environment whose python-docx backend returns
`PK`-prefixed bytes satisfies the conversion hypothesis, and the validation
conclusion follows. -/
theorem c2_docx_validation_gate_witness :
    markdown_to_docx_bytes
        ⟨false, true, fun _ => Except.error (Exc.other []),
          fun _ => Except.ok [80, 75, 3, 4], fun _ => Except.ok []⟩ ("hello".data)
        = Except.ok [80, 75, 3, 4] ∧
    (¬([80, 75, 3, 4] : List Nat).isEmpty ∧ pkPrefix [80, 75, 3, 4] = true) :=
  ⟨rfl,
    (c2_docx_validation_gate
        ⟨false, true, fun _ => Except.error (Exc.other []),
          fun _ => Except.ok [80, 75, 3, 4], fun _ => Except.ok []⟩ ("hello".data)).1
      [80, 75, 3, 4] rfl⟩

/-- Witness for C3: a concrete 2x2 table parses, and its width plan obeys
both bounds. -/
theorem c3_table_width_plan_witness :
    parse_markdown_table [("|a|b|".data), ("|-|-|".data), ("|x|y|".data)]
      = some { rows := [[['a'], ['b']], [['x'], ['y']]], maxLens := [1, 1],
               colWidths := [33355 / 127, 33355 / 127] } ∧
    (([(33355 : ℚ) / 127, 33355 / 127] : List ℚ).sum ≤ availableWidth ∧
      ∀ q ∈ (sortedWidthPairs [1, 1]).zip ([(33355 : ℚ) / 127, 33355 / 127] : List ℚ),
        15 < ([1, 1] : List ℕ).getD q.1.1 0 → q.2 ≤ availableWidth * (4 / 5)) := by
  have hEq : parse_markdown_table [("|a|b|".data), ("|-|-|".data), ("|x|y|".data)]
      = some { rows := [[['a'], ['b']], [['x'], ['y']]], maxLens := [1, 1],
               colWidths := [33355 / 127, 33355 / 127] } := by
    have h1 : tableRows [("|a|b|".data), ("|-|-|".data), ("|x|y|".data)]
        = [[['a'], ['b']], [['x'], ['y']]] := by decide
    have h2 : maxContentLengths [[['a'], ['b']], [['x'], ['y']]]
        (([[['a'], ['b']], [['x'], ['y']]] : List (List (List Char))).headD []).length
        = [1, 1] := by decide
    have h3 : colWidthsFinal [1, 1] = [33355 / 127, 33355 / 127] := by
      norm_num [colWidthsFinal, rawColWidths, sortedWidthPairs, colWidthPairs,
        narrowCols, mediumCols, wideColsL, narrowW, mediumW, narrowW2, mediumW2,
        remainingW, initialRemaining, wideTotalWeight, availableWidth, a4Width,
        pageLeftMargin, pageRightMargin, List.insertionSort, List.orderedInsert,
        List.enum, List.enumFrom]
    unfold parse_markdown_table parsedMaxLens
    rw [h1, if_neg (by decide), if_neg (by decide), h2, h3]
  exact ⟨hEq, c3_table_width_plan _ _ hEq⟩

/-- Witness for C4: in the parsed 2x2 table no separator row survives, and
the parser's None condition matches the surviving-row count. -/
theorem c4_separator_removal_witness :
    rowIsSeparator [("A".data), ("B".data)] = false ∧
    (parse_markdown_table [("| A | B |".data), ("|---|---|".data), ("| 1 | 2 |".data)]
        = none ↔
      (tableRows [("| A | B |".data), ("|---|---|".data), ("| 1 | 2 |".data)]).length < 2) :=
  ⟨(c4_separator_removal_before_count
      [("| A | B |".data), ("|---|---|".data), ("| 1 | 2 |".data)]).1
      [("A".data), ("B".data)] (by decide),
    (c4_separator_removal_before_count
      [("| A | B |".data), ("|---|---|".data), ("| 1 | 2 |".data)]).2.1⟩

/-- Witness for C5: the cell `a` of a concrete row is parsed and non-empty. -/
theorem c5_row_parsing_witness :
    ("a".data ∈ parseRow ("| a | b |".data)) ∧ ¬("a".data).isEmpty = true :=
  ⟨by decide,
    (c5_row_parsing_drops_all_empty ("| a | b |".data)).2.2 ("a".data) (by decide)⟩

/-- Witness for C7: the pipe-free line `12. hello` satisfies the hypothesis,
and by the DOCX side of the equivalence it is a numbered item there. -/
theorem c7_numbered_item_recognition_witness :
    ('|' ∉ ("12. hello".data)) ∧
    ∃ text, docxClassifyLine ("12. hello".data) = DocxLineKind.numbered text :=
  ⟨by decide,
    ((c7_numbered_item_recognition ("12. hello".data) (by decide)).2).mpr
      ⟨'1', '2', "hello".data, by decide, by decide, Or.inl (by decide)⟩⟩

/-- Witness for C8: with the CLI missing, the first service raising and the
second answering 404, every method fails and the assembler emits the
placeholder paragraph. -/
theorem c8_diagram_chain_degrades_witness :
    cliFailed CliOutcome.notFound = true ∧
    httpFailed HttpOutcomeM.exc = true ∧
    httpFailed (HttpOutcomeM.resp 404 []) = true ∧
    mermaidBlockElement ⟨true, .notFound, .exc, .resp 404 []⟩ true ("graph TD".data)
      = .placeholderPara (create_mermaid_placeholder ("graph TD".data)) :=
  ⟨by decide, by decide, by decide,
    (c8_diagram_chain_degrades ⟨true, .notFound, .exc, .resp 404 []⟩
        ("graph TD".data) true).2.2.2.1 (by decide)⟩

/-- Witness for C9: a concrete sequence-diagram source produces exactly the
Sequence Diagram placeholder string. -/
theorem c9_placeholder_classification_witness :
    ("sequenceDiagram".data <+: firstLineOf ("sequenceDiagram\nA->>B: Hi".data)) ∧
    create_mermaid_placeholder ("sequenceDiagram\nA->>B: Hi".data)
      = "[Sequence Diagram - Mermaid diagram rendering not available]".data :=
  ⟨by decide,
    (c9_placeholder_classification ("sequenceDiagram\nA->>B: Hi".data)).1 (by decide)⟩

/-- Witness for C10: whitespace-only input is blank, and its conversion
coincides with the conversion of the substitute document. -/
theorem c10_blank_input_substitution_witness :
    pyIsBlank ("  \n ".data) = true ∧
    markdown_to_docx_bytes
        ⟨false, true, fun _ => Except.error (Exc.other []),
          fun _ => Except.ok [80, 75, 0], fun _ => Except.ok []⟩ ("  \n ".data)
      = markdown_to_docx_bytes
          ⟨false, true, fun _ => Except.error (Exc.other []),
            fun _ => Except.ok [80, 75, 0], fun _ => Except.ok []⟩ emptyDocumentText :=
  ⟨by decide,
    (c10_blank_input_substitution
        ⟨false, true, fun _ => Except.error (Exc.other []),
          fun _ => Except.ok [80, 75, 0], fun _ => Except.ok []⟩ ("  \n ".data)
        (by decide)).1⟩

end PdfDocxApi
